import Mathlib

/-!
Shallow embedding of the QueryMind orchestration core
(src/backend/orchestrator.py, src/backend/tools.py, src/backend/main.py).

External collaborators (the generative-text gateway, the relational query
service, the encyclopedia service) are modelled as explicit oracle
parameters: each node receives the outcome of its external calls as a
value, so that "the node makes no call" is expressed as independence of
the node's result from the oracle.
-/

namespace QueryMind

/-- Prefix test on character lists. -/
def listIsPrefix : List Char → List Char → Bool
  | [], _ => true
  | _ :: _, [] => false
  | a :: as, b :: bs => a = b && listIsPrefix as bs

/-- Substring occurrence test on character lists. -/
def listContainsSub (needle : List Char) : List Char → Bool
  | [] => listIsPrefix needle []
  | c :: rest => listIsPrefix needle (c :: rest) || listContainsSub needle rest

/-- Python `needle in haystack` substring test. -/
def containsSub (hay needle : String) : Bool :=
  listContainsSub needle.data hay.data

/-- ASCII whitespace test (the characters Python `strip()` removes on the
strings this pipeline handles). -/
def isSpaceChar (c : Char) : Bool :=
  c = ' ' || c = '\t' || c = '\n' || c = '\r'

/-- Python `strip()`: drop leading and trailing whitespace. -/
def strTrim (s : String) : String :=
  String.mk (((s.data.dropWhile isSpaceChar).reverse.dropWhile isSpaceChar).reverse)

/-- ASCII lower-casing of one character; the pipeline's keyword tests only
involve ASCII text. -/
def asciiLower (c : Char) : Char :=
  if 'A' ≤ c ∧ c ≤ 'Z' then Char.ofNat (c.toNat + 32) else c

/-- Python `str.lower()` on ASCII text. -/
def strLower (s : String) : String :=
  String.mk (s.data.map asciiLower)

/-- Python `startswith`. -/
def strStartsWith (s pre : String) : Bool :=
  listIsPrefix pre.data s.data

/-- Python `endswith`. -/
def strEndsWith (s suf : String) : Bool :=
  listIsPrefix suf.data.reverse s.data.reverse

/-- Python slice `s[n:]`. -/
def strDrop (s : String) (n : Nat) : String :=
  String.mk (s.data.drop n)

/-- Python slice `s[:-n]`. -/
def strDropRight (s : String) (n : Nat) : String :=
  String.mk (s.data.take (s.data.length - n))

/-- Conversation memory, a JSON object; the pipeline never reads its
values, only whether it is empty, so values are kept as plain strings. -/
abbrev MemoryContext := List (String × String)

/-- `json.dumps(memory_context, indent=2)` restricted to the shape the code
observes: the empty object serializes to the two-character brace pair, a
nonempty object to a multi-line rendering. -/
def json_dumps (mc : MemoryContext) : String :=
  if mc.isEmpty then "\x7b\x7d"
  else
    "\x7b\n"
      ++ String.intercalate ",\n"
          (mc.map fun kv => "  \x22" ++ kv.1 ++ "\x22: \x22" ++ kv.2 ++ "\x22")
      ++ "\n\x7d"

/-- A scalar cell of a result row. Numeric scalars (Python int/float) are
modelled by integers: no claim depends on fractional values. `vCoro topic`
models the coroutine object created — and never awaited, hence never run —
by calling the async `wikipedia_lookup(topic)` without `await`. -/
inductive Value where
  | vNum (n : Int)
  | vStr (s : String)
  | vNull
  | vCoro (topic : String)
deriving DecidableEq, Repr

/-- `isinstance(value, str)`. -/
def Value.isStrValue : Value → Bool
  | .vStr _ => true
  | _ => false

/-- A result row: a Python dict in insertion order. -/
abbrev Row := List (String × Value)

/-- A visualization configuration record; `vtype` is the JSON key `type`. -/
structure VizConfig where
  vtype : String
  x_axis : Option String
  y_axis : Option String
  color : Option String
deriving DecidableEq, Repr

/-- The `QueryState` TypedDict threaded through the pipeline. -/
structure QueryState where
  query : String
  intent : String
  sql_query : Option String
  results : Option (List Row)
  visualization_config : Option VizConfig
  memory_context : MemoryContext
  db_schema : String
  error : Option String
  insights : Option String
deriving DecidableEq, Repr

/-- Outcome of a gateway call followed by JSON decoding of its text:
the call raised (`genFail`, carrying `str(e)`), the text was not valid
JSON (`parseFail`), or a decoded payload of type `α`. -/
inductive GenParse (α : Type) where
  | genFail (msg : String)
  | parseFail
  | ok (a : α)
deriving DecidableEq, Repr

/-- Python truthiness of an optional string field (`if state.get(k):`). -/
def pyTruthyStr (o : Option String) : Bool :=
  match o with
  | some s => s ≠ ""
  | none => false

/-- Line-based markdown fence stripping used by the context enhancer:
drop a first line starting with a fence, drop a last line that is a bare
fence, rejoin and trim. -/
def stripFenceBlock (t : String) : String :=
  let lines := t.splitOn "\n"
  let lines :=
    match lines with
    | l0 :: rest => if strStartsWith l0 "```" then rest else l0 :: rest
    | [] => []
  let lines :=
    match lines.getLast? with
    | some l => if strTrim l = "```" then lines.dropLast else lines
    | none => lines
  strTrim (String.intercalate "\n" lines)

/-- `enhance_query_with_context`: rewrite the query using memory context;
`gen` is the gateway outcome (raised message, or response text). -/
def enhance_query_with_context (query : String) (memory_context : MemoryContext)
    (gen : Except String String) : String :=
  if memory_context.isEmpty then query
  else
    let context_str := json_dumps memory_context
    if context_str = "" || context_str = "\x7b\x7d" then query
    else
      match gen with
      | .error _ => query
      | .ok t =>
        let enhanced := strTrim t
        let enhanced :=
          if strStartsWith enhanced "```" then stripFenceBlock enhanced else enhanced
        if enhanced = "" then query else enhanced

/-- The fast-path analytical keyword list of `router_agent`. -/
def analytical_keywords : List String :=
  ["top", "highest", "lowest", "most", "least", "best", "worst",
   "count", "sum", "average", "total", "list", "show me", "number of",
   "how many", "which", "what are", "expensive", "cheap", "sellers by",
   "products by", "orders by", "revenue", "sales"]

/-- The definition/translation indicator list of `router_agent`. -/
def tool_indicators : List String :=
  ["what is", "what does", "define", "meaning of", "translate"]

/-- The reduced keyword list used in both exception handlers of
`router_agent` (note: shorter than `analytical_keywords`). -/
def fallback_keywords : List String :=
  ["top", "highest", "lowest", "most", "least", "best", "worst",
   "count", "sum", "average", "total", "list", "show me", "number of"]

def hasAnalyticalKeyword (ql : String) : Bool :=
  analytical_keywords.any fun k => containsSub ql k

def hasToolIndicator (ql : String) : Bool :=
  tool_indicators.any fun k => containsSub ql k

/-- Intent chosen by the exception handlers of `router_agent`: the reduced
keyword list, with no definition/translation exclusion. -/
def routerFallbackIntent (ql : String) : String :=
  if fallback_keywords.any (fun k => containsSub ql k) then "analytical"
  else "conversational"

/-- Modelled from the spec: the failure policy as the spec words it, namely
re-applying the fast heuristic's keyword test (same keyword set AND the same
definition/translation exclusion), defaulting to conversational. Stated only
to compare against the source's `routerFallbackIntent`. -/
def routerFallbackIntentSpec (ql : String) : String :=
  if hasAnalyticalKeyword ql && !hasToolIndicator ql then "analytical"
  else "conversational"

/-- `router_agent`: fast keyword path, then the gateway classification; the
`gen` payload is the decoded JSON object's `intent` field (absent ⇒ none). -/
def router_agent (st : QueryState) (gen : GenParse (Option String)) : QueryState :=
  let ql := strLower st.query
  if hasAnalyticalKeyword ql && !hasToolIndicator ql then
    { st with intent := "analytical" }
  else
    match gen with
    | .ok intentField => { st with intent := intentField.getD "conversational" }
    | .parseFail => { st with intent := routerFallbackIntent ql }
    | .genFail _ => { st with intent := routerFallbackIntent ql }

def valid_intents : List String :=
  ["analytical", "semantic", "tool", "conversational"]

/-- `route_after_router`: the conditional-edge dispatch key
(`intent if intent in valid_intents else "conversational"`). -/
def route_after_router (st : QueryState) : String :=
  let intent := st.intent
  if intent ∈ valid_intents then intent else "conversational"

/-- `str(e).lower()`-based classification of an execution/generation
failure message in the exception handler of `analytical_agent`. The code
assigns the generic message first and then overrides it through the
if/elif chain; the result is this three-way cascade. -/
def classifyExecError (e : String) : String :=
  let el := strLower e
  if containsSub el "syntax error" || containsSub el "invalid" then
    "SQL syntax error: " ++ e
  else if containsSub el "does not exist" || containsSub el "relation" then
    "Database error - table or column not found: " ++ e
  else
    "Error executing query: " ++ e

/-- `rstrip(';')`: remove every trailing semicolon character. -/
def stripTrailingSemis (s : String) : String :=
  String.mk ((s.data.reverse.dropWhile (· = ';')).reverse)

/-- Fence and terminator stripping applied to the SQL-generation response
in `analytical_agent`. -/
def stripSqlFences (raw : String) : String :=
  let s := strTrim raw
  let s :=
    if strStartsWith s "```sql" then strDrop s 6
    else if strStartsWith s "```" then strDrop s 3
    else s
  let s := if strEndsWith s "```" then strDropRight s 3 else s
  let s := strTrim s
  strTrim (stripTrailingSemis s)

/-- External outcomes consumed by `analytical_agent`: the schema fetch, the
gateway call inside the context enhancer, the SQL-generation gateway call
(raised message or response text), and the relational query service
(error message or rows; `execute_query` itself always returns a list, so
the code's `results is None` guard never fires). -/
structure AnalyticalEnv where
  schema : String
  enhanceGen : Except String String
  sqlGen : Except String String
  exec : String → Except String (List Row)

/-- `analytical_agent`: fetch the schema, enhance the query, generate SQL,
execute it, with the exception handler setting `results = []`, keeping
`sql_query`, and storing the classified error message. -/
def analytical_agent (st : QueryState) (env : AnalyticalEnv) : QueryState :=
  let st1 := { st with db_schema := env.schema }
  let _enhanced := enhance_query_with_context st1.query st1.memory_context env.enhanceGen
  match env.sqlGen with
  | .error e =>
    { st1 with results := some [], sql_query := st1.sql_query,
               error := some (classifyExecError e) }
  | .ok raw =>
    let sql := stripSqlFences raw
    let st2 := { st1 with sql_query := some sql }
    match env.exec sql with
    | .ok rows => { st2 with results := some rows, error := none }
    | .error e =>
      { st2 with results := some [], error := some (classifyExecError e) }

/-- Outcome of the gateway call inside `get_definition`. `keyPresent`
models the presence of the API key in the environment. -/
structure DefEnv where
  keyPresent : Bool
  gen : Except String String
deriving Repr

/-- `get_definition`: a glossary definition from the gateway; every failure
is converted to an error string, never raised. -/
def get_definition (term : String) (env : DefEnv) : String :=
  let _ := term
  if !env.keyPresent then "Error: GEMINI_API_KEY must be set in .env file"
  else
    match env.gen with
    | .ok t => strTrim t
    | .error e => "Error getting definition: " ++ e

/-- Outcome of one attempt of the encyclopedia-lookup loop: the page or
summary fetch timed out (`asyncio.TimeoutError`), some other exception was
raised (`exn`, carrying `str(e)`), the page does not exist, the summary was
empty, or a summary string was obtained. -/
inductive AttemptOutcome where
  | timeout
  | exn (msg : String)
  | pageMissing
  | emptySummary
  | gotSummary (s : String)
deriving DecidableEq, Repr

/-- Truncation of a returned summary in `wikipedia_lookup`: the first 500
characters followed by a three-character ellipsis marker. -/
def truncate500 (s : String) : String :=
  if 500 < s.length then String.mk (s.data.take 500) ++ "..." else s

/-- Observable run of `wikipedia_lookup`: the returned text, how many
attempts were made, the backoff sleeps in order, and the term passed to the
glossary-definition fallback when that path was taken. -/
structure WikiRun where
  text : String
  attempts : Nat
  sleeps : List Nat
  fallbackTerm : Option String
deriving DecidableEq, Repr

def max_retries : Nat := 3

def retry_delay : Nat := 2

/-- The code reached after the retry loop of `wikipedia_lookup` exits
without a summary. (The exception guard around the fallback call is
unreachable: `get_definition` never raises.) -/
def wikiFallbackRun (topic : String) (defEnv : DefEnv) (fallback_to_gemini : Bool)
    (attempts : Nat) (sleeps : List Nat) : WikiRun :=
  if fallback_to_gemini then
    { text := get_definition topic defEnv, attempts := attempts, sleeps := sleeps,
      fallbackTerm := some topic }
  else
    { text := "Wikipedia article not found or connection timed out for \x27" ++ topic
        ++ "\x27. Please try again or use a different search term.",
      attempts := attempts, sleeps := sleeps, fallbackTerm := none }

/-- The retry loop of `wikipedia_lookup` over the remaining attempt
outcomes; `idx` is the current attempt index, so a nonempty tail is exactly
the code's `attempt < max_retries - 1` when started from a list of length
`max_retries`. Sleeps accumulate in reverse. -/
def wikiLoop (topic : String) (defEnv : DefEnv) (fb : Bool) :
    List AttemptOutcome → Nat → List Nat → WikiRun
  | [], idx, sleeps => wikiFallbackRun topic defEnv fb idx sleeps.reverse
  | o :: rest, idx, sleeps =>
    match o with
    | .gotSummary s =>
      { text := truncate500 s, attempts := idx + 1, sleeps := sleeps.reverse,
        fallbackTerm := none }
    | .emptySummary => wikiFallbackRun topic defEnv fb (idx + 1) sleeps.reverse
    | .pageMissing => wikiFallbackRun topic defEnv fb (idx + 1) sleeps.reverse
    | .timeout =>
      if rest.isEmpty then wikiFallbackRun topic defEnv fb (idx + 1) sleeps.reverse
      else wikiLoop topic defEnv fb rest (idx + 1) (retry_delay * 2 ^ idx :: sleeps)
    | .exn msg =>
      let el := strLower msg
      if containsSub el "timeout" || containsSub el "connection"
          || containsSub el "max retries" then
        if rest.isEmpty then wikiFallbackRun topic defEnv fb (idx + 1) sleeps.reverse
        else wikiLoop topic defEnv fb rest (idx + 1) (retry_delay * 2 ^ idx :: sleeps)
      else wikiFallbackRun topic defEnv fb (idx + 1) sleeps.reverse

/-- `wikipedia_lookup` with its retry/backoff/fallback policy; `outcomes i`
is what attempt `i` of the external service would produce. -/
def wikipedia_lookup (topic : String) (outcomes : Nat → AttemptOutcome)
    (defEnv : DefEnv) (fallback_to_gemini : Bool) : WikiRun :=
  wikiLoop topic defEnv fallback_to_gemini ((List.range max_retries).map outcomes) 0 []

/-- Decoded payload of the tool-selection JSON in `tool_agent`:
`parsed_response.get('tool', '')` and the two optional parameters. -/
structure ToolCall where
  tool : String
  topicParam : Option String
  termParam : Option String
deriving DecidableEq, Repr

def textViz : VizConfig := { vtype := "text", x_axis := none, y_axis := none, color := none }

/-- `tool_agent`: pick a sub-tool from the gateway's JSON and wrap the
outcome as a single-row text result with the text-display marker. The
glossary branch awaits its call (`await get_definition(term)`), but the
encyclopedia branch does not: `result_text = wikipedia_lookup(topic)`
lacks `await`, so the async call only creates a coroutine object — the
lookup, its retries and its fallback never execute — and that object
itself is stored as the row's value, modelled by `Value.vCoro`. -/
def tool_agent (st : QueryState) (gen : GenParse ToolCall) (defEnv : DefEnv) :
    QueryState :=
  match gen with
  | .genFail e =>
    { st with results := some [[("text", Value.vStr ("Error: " ++ e))]],
              visualization_config := some textViz }
  | .parseFail =>
    { st with results := some [[("text", Value.vStr "Error: Could not parse tool request")]],
              visualization_config := some textViz }
  | .ok call =>
    let result_value : Value :=
      if call.tool = "wikipedia_lookup" then
        Value.vCoro (call.topicParam.getD "")
      else if call.tool = "get_definition" then
        Value.vStr (get_definition (call.termParam.getD "") defEnv)
      else Value.vStr ("Unknown tool: " ++ call.tool)
    { st with results := some [[("text", result_value)]],
              visualization_config := some textViz }

def Value.isNumeric : Value → Bool
  | .vNum _ => true
  | _ => false

def Value.isLongText : Value → Bool
  | .vStr s => decide (50 < s.length)
  | _ => false

/-- Columns of the first row classified numeric by `viz_generator`
(`isinstance(value, (int, float))`). -/
def numericColumns (row : Row) : List String :=
  (row.filter fun kv => kv.2.isNumeric).map (·.1)

/-- Columns classified long-text (string longer than 50 characters),
after the numeric branch of the elif chain. -/
def textColumns (row : Row) : List String :=
  (row.filter fun kv => !kv.2.isNumeric && kv.2.isLongText).map (·.1)

/-- Columns classified identifier-like (name ends in `_id` or equals
`product_id`), after the numeric and long-text branches. -/
def idColumns (row : Row) : List String :=
  (row.filter fun kv =>
    !kv.2.isNumeric && !kv.2.isLongText
      && (strEndsWith kv.1 "_id" || kv.1 = "product_id")).map (·.1)

def rating_words : List String :=
  ["rating", "score", "review score", "bad rating", "good rating",
   "low rating", "high rating"]

def comparison_words : List String :=
  ["compare", "top", "best", "worst", "highest", "lowest"]

def mentionsRatings (ql : String) : Bool :=
  rating_words.any fun w => containsSub ql w

def mentionsComparison (ql : String) : Bool :=
  comparison_words.any fun w => containsSub ql w

/-- The x-axis column chosen when `viz_generator` forces a bar chart for a
rating query: `product_id` if the first row has that key, else the first
identifier-like column, else the first key of the row. The success-path
override and the two exception handlers compute this identically. -/
def ratingOverrideX (first_row : Row) : String :=
  let keys := first_row.map (·.1)
  if keys.contains "product_id" then "product_id"
  else
    match idColumns first_row with
    | c :: _ => c
    | [] => keys.headD ""

/-- The plain-table default configuration (`type` table, null axes for the
empty-result case; the exception-handler default carries no axis keys,
modelled the same way). -/
def tableVizDefault : VizConfig := ⟨"table", none, none, none⟩

/-- The bar configuration forced for rating queries. -/
def ratingBarViz (first_row : Row) : VizConfig :=
  ⟨"bar", some (ratingOverrideX first_row), some "avg_score", none⟩

/-- `viz_generator`: skip on error, default table on empty results,
otherwise take the gateway's JSON config, forcing a bar chart keyed on
`ratingOverrideX`/`avg_score` for rating queries when the model chose a
table or the call/parse failed. -/
def viz_generator (st : QueryState) (gen : GenParse VizConfig) : QueryState :=
  let results := st.results.getD []
  let ql := strLower st.query
  if pyTruthyStr st.error then { st with visualization_config := none }
  else
    match results with
    | [] =>
      { st with visualization_config := some tableVizDefault }
    | first_row :: _ =>
      let numeric_columns := numericColumns first_row
      let mentions_ratings := mentionsRatings ql
      match gen with
      | .ok cfg =>
        let cfg :=
          if mentions_ratings && numeric_columns.contains "avg_score"
              && cfg.vtype = "table" then ratingBarViz first_row
          else cfg
        { st with visualization_config := some cfg }
      | .parseFail =>
        let cfg :=
          if mentions_ratings && numeric_columns.contains "avg_score" then
            ratingBarViz first_row
          else tableVizDefault
        { st with visualization_config := some cfg }
      | .genFail _ =>
        let cfg :=
          if mentions_ratings && numeric_columns.contains "avg_score" then
            ratingBarViz first_row
          else tableVizDefault
        { st with visualization_config := some cfg }

/-- The final payload of the `/api/chat/query` endpoint: the final state
plus the derived human-readable message. -/
structure ChatResponse where
  state : QueryState
  message : String
deriving DecidableEq, Repr

/-- The message-derivation chain of `chat_query` (run after `results` has
been normalized to a list). -/
def deriveMessage (fs : QueryState) : String :=
  if pyTruthyStr fs.error then "Error: " ++ fs.error.getD ""
  else if (fs.results.getD []).isEmpty then
    if fs.intent = "conversational" then
      "I\x27m here to help! Ask me about products, sales, or anything related to the e-commerce database."
    else "No results found for your query. Please try rephrasing your question."
  else if fs.intent = "analytical" && fs.sql_query.isSome then
    "Found " ++ toString (fs.results.getD []).length ++ " results for your query."
  else if fs.intent = "semantic" then
    "Found " ++ toString (fs.results.getD []).length ++ " products matching your query."
  else if fs.intent = "tool" then "Here\x27s the information you requested."
  else "Here\x27s what I found."

/-- `chat_query` around the workflow invocation: `workflow` is the outcome
of `workflow_app.ainvoke` (final state, or a raised message caught by the
outer containment handler, which substitutes a fully-formed error state). -/
def chat_query (request_message : String) (workflow : Except String QueryState) :
    ChatResponse :=
  match workflow with
  | .error e =>
    { state :=
        { query := request_message, intent := "", sql_query := none,
          results := some [], visualization_config := none, memory_context := [],
          db_schema := "", error := some e, insights := none },
      message := "Error processing your query: " ++ e }
  | .ok fs0 =>
    let fs := if fs0.results.isNone then { fs0 with results := some [] } else fs0
    { state := fs, message := deriveMessage fs }

/-- The initial request state built by `chat_query` (the `insights` key is
not part of the initial dict; it is modelled as `none`). -/
def emptyState (q : String) : QueryState :=
  { query := q, intent := "", sql_query := none, results := none,
    visualization_config := none, memory_context := [], db_schema := "",
    error := none, insights := none }

/-- A result row with a numeric `avg_score` column and no identifier-like
column. -/
def vizCexRow : Row := [("avg_score", Value.vNum 2), ("category", Value.vStr "toys")]

/-- A semantic-branch state for a rating query over `vizCexRow`. -/
def vizCexState : QueryState :=
  { query := "products with bad rating", intent := "semantic", sql_query := none,
    results := some [vizCexRow], visualization_config := none, memory_context := [],
    db_schema := "", error := none, insights := none }

/-- A result row holding both `product_id` and a numeric `avg_score`. -/
def vizWitnessRow : Row := [("product_id", Value.vStr "p1"), ("avg_score", Value.vNum 1)]

/-- A semantic-branch state for a rating query over `vizWitnessRow`. -/
def vizWitnessState : QueryState :=
  { query := "top products by bad rating", intent := "semantic", sql_query := none,
    results := some [vizWitnessRow], visualization_config := none, memory_context := [],
    db_schema := "", error := none, insights := none }

theorem strLength_mk (l : List Char) : (String.mk l).length = l.length := rfl

theorem strLength_append (a b : String) : (a ++ b).length = a.length + b.length :=
  String.length_append a b

/-- Every truncated summary has at most 503 characters: 500 kept plus the
three-character ellipsis marker. -/
theorem truncate500_length_le (s : String) : (truncate500 s).length ≤ 503 := by
  unfold truncate500
  split
  · rw [strLength_append, strLength_mk, List.length_take,
      show ("...".length) = 3 from rfl]
    omega
  · omega

/-- With the gateway fallback enabled, a run of the retry loop that did not
take the glossary path returned a truncated summary. -/
theorem wikiLoop_summary_trunc (topic : String) (defEnv : DefEnv)
    (os : List AttemptOutcome) (idx : Nat) (sleeps : List Nat)
    (hfb : (wikiLoop topic defEnv true os idx sleeps).fallbackTerm = none) :
    ∃ s, (wikiLoop topic defEnv true os idx sleeps).text = truncate500 s := by
  induction os generalizing idx sleeps with
  | nil => simp [wikiLoop, wikiFallbackRun] at hfb
  | cons o rest ih =>
    cases o with
    | gotSummary s => exact ⟨s, rfl⟩
    | emptySummary => simp [wikiLoop, wikiFallbackRun] at hfb
    | pageMissing => simp [wikiLoop, wikiFallbackRun] at hfb
    | timeout =>
      rw [wikiLoop] at hfb ⊢
      by_cases hr : rest.isEmpty
      · simp [hr, wikiFallbackRun] at hfb
      · simp only [hr, if_false, Bool.false_eq_true] at hfb ⊢
        exact ih _ _ hfb
    | exn m =>
      rw [wikiLoop] at hfb ⊢
      by_cases hc : (containsSub (strLower m) "timeout" || containsSub (strLower m) "connection"
          || containsSub (strLower m) "max retries") = true
      · rw [if_pos hc] at hfb ⊢
        by_cases hr : rest.isEmpty
        · simp [hr, wikiFallbackRun] at hfb
        · simp only [hr, if_false, Bool.false_eq_true] at hfb ⊢
          exact ih _ _ hfb
      · rw [if_neg hc] at hfb ⊢
        simp [wikiFallbackRun] at hfb

/-- C1: for every inbound request, the final state returned to the caller
has `results` bound to an array (possibly empty), never null or absent —
both when the workflow returns a final state (even one whose `results` was
left null) and on the outer containment path that catches an uncaught
failure. -/
theorem chat_query_results_always_array (request_message : String)
    (workflow : Except String QueryState) :
    ∃ l : List Row, (chat_query request_message workflow).state.results = some l := by
  cases workflow with
  | error e => exact ⟨[], rfl⟩
  | ok fs0 =>
    cases hr : fs0.results with
    | none => exact ⟨[], by simp [chat_query, hr]⟩
    | some l => exact ⟨l, by simp [chat_query, hr]⟩

/-- C2: a query whose lower-cased text contains an analytical keyword and
no definition/translation indicator is classified `analytical` by the fast
path, and the router's result does not depend on the gateway outcome (in
particular it is the same when the gateway is unavailable). -/
theorem router_fast_path_analytical (st : QueryState)
    (gen gen2 : GenParse (Option String))
    (hkw : hasAnalyticalKeyword (strLower st.query) = true)
    (hnotool : hasToolIndicator (strLower st.query) = false) :
    (router_agent st gen).intent = "analytical"
    ∧ router_agent st gen = router_agent st gen2 := by
  unfold router_agent
  simp [hkw, hnotool]

theorem router_fast_path_analytical_witness :
    (router_agent (emptyState "Top 5 best selling products")
        (GenParse.genFail "gateway unavailable")).intent = "analytical"
    ∧ router_agent (emptyState "Top 5 best selling products")
        (GenParse.genFail "gateway unavailable")
      = router_agent (emptyState "Top 5 best selling products")
          (GenParse.ok (some "semantic")) :=
  router_fast_path_analytical _ _ _ (by decide) (by decide)

/-- C10: the conditional-edge dispatch key after the Router is always one
of the four labels, and any state `intent` outside that set is mapped to
`conversational`. -/
theorem route_after_router_four_labels (st : QueryState) :
    (route_after_router st = "analytical" ∨ route_after_router st = "semantic"
      ∨ route_after_router st = "tool" ∨ route_after_router st = "conversational")
    ∧ (st.intent ∉ valid_intents → route_after_router st = "conversational") := by
  unfold route_after_router
  by_cases h : st.intent ∈ valid_intents
  · refine ⟨?_, fun hc => absurd h hc⟩
    have hm : st.intent = "analytical" ∨ st.intent = "semantic"
        ∨ st.intent = "tool" ∨ st.intent = "conversational" := by
      simpa [valid_intents] using h
    rw [if_pos h]
    exact hm
  · exact ⟨Or.inr (Or.inr (Or.inr (if_neg h))), fun _ => if_neg h⟩

theorem route_after_router_four_labels_witness :
    route_after_router { emptyState "hello" with intent := "banana" } = "conversational" :=
  (route_after_router_four_labels _).2 (by decide)

/-- C6: with an empty memory context (or one serializing to no content),
the context enhancer is the identity on the query for every gateway
behavior — in particular its result does not depend on the gateway. -/
theorem enhance_empty_context_identity (q : String) (mc : MemoryContext)
    (g : Except String String)
    (h : mc = [] ∨ json_dumps mc = "\x7b\x7d") :
    enhance_query_with_context q mc g = q := by
  unfold enhance_query_with_context
  rcases h with h | h
  · subst h
    simp
  · by_cases he : mc.isEmpty
    · simp [he]
    · simp [he, h]

theorem enhance_empty_context_identity_witness :
    enhance_query_with_context "bad review" []
      (Except.ok "products with bad reviews") = "bad review" :=
  enhance_empty_context_identity _ _ _ (Or.inl rfl)

/-- C3 (code bug): when the gateway selects the encyclopedia sub-tool, the
claim fails on the code: `result_text = wikipedia_lookup(topic)` is never
awaited, so the single row's `text` field holds the coroutine object — not
a string — and the lookup's retry/fallback machinery never runs; the
text-display marker is still set. (The glossary and failure branches do
store strings, matching the claim.) -/
theorem tool_agent_wikipedia_coroutine_bug :
    (tool_agent { emptyState "what is boleto?" with intent := "tool" }
        (GenParse.ok ⟨"wikipedia_lookup", some "boleto", none⟩)
        ⟨true, Except.ok "a Brazilian payment method"⟩).results
      = some [[("text", Value.vCoro "boleto")]]
    ∧ (Value.vCoro "boleto").isStrValue = false
    ∧ (tool_agent { emptyState "what is boleto?" with intent := "tool" }
        (GenParse.ok ⟨"wikipedia_lookup", some "boleto", none⟩)
        ⟨true, Except.ok "a Brazilian payment method"⟩).visualization_config
      = some textViz := by
  decide

/-- C8: when all three encyclopedia page-fetch attempts time out, exactly
3 attempts are made, the backoff sleeps are 2 s then 4 s (total 6 s of
waiting between attempts), and the run falls back to the glossary
definition invoked with the same topic as the term. -/
theorem wiki_three_timeouts (topic : String) (outcomes : Nat → AttemptOutcome)
    (defEnv : DefEnv)
    (h0 : outcomes 0 = AttemptOutcome.timeout)
    (h1 : outcomes 1 = AttemptOutcome.timeout)
    (h2 : outcomes 2 = AttemptOutcome.timeout) :
    (wikipedia_lookup topic outcomes defEnv true).attempts = 3
    ∧ (wikipedia_lookup topic outcomes defEnv true).sleeps = [2, 4]
    ∧ 6 ≤ (wikipedia_lookup topic outcomes defEnv true).sleeps.sum
    ∧ (wikipedia_lookup topic outcomes defEnv true).fallbackTerm = some topic
    ∧ (wikipedia_lookup topic outcomes defEnv true).text = get_definition topic defEnv := by
  have hmap : (List.range max_retries).map outcomes
      = [AttemptOutcome.timeout, AttemptOutcome.timeout, AttemptOutcome.timeout] := by
    show [outcomes 0, outcomes 1, outcomes 2] = _
    rw [h0, h1, h2]
  unfold wikipedia_lookup
  rw [hmap]
  simp [wikiLoop, wikiFallbackRun, retry_delay]

theorem wiki_three_timeouts_witness :
    (wikipedia_lookup "boleto" (fun _ => AttemptOutcome.timeout)
        ⟨true, Except.ok "a payment slip"⟩ true).attempts = 3
    ∧ (wikipedia_lookup "boleto" (fun _ => AttemptOutcome.timeout)
        ⟨true, Except.ok "a payment slip"⟩ true).sleeps = [2, 4]
    ∧ 6 ≤ (wikipedia_lookup "boleto" (fun _ => AttemptOutcome.timeout)
        ⟨true, Except.ok "a payment slip"⟩ true).sleeps.sum
    ∧ (wikipedia_lookup "boleto" (fun _ => AttemptOutcome.timeout)
        ⟨true, Except.ok "a payment slip"⟩ true).fallbackTerm = some "boleto"
    ∧ (wikipedia_lookup "boleto" (fun _ => AttemptOutcome.timeout)
        ⟨true, Except.ok "a payment slip"⟩ true).text
      = get_definition "boleto" ⟨true, Except.ok "a payment slip"⟩ :=
  wiki_three_timeouts _ _ _ rfl rfl rfl

/-- C4 counterexample: on gateway failure for the query with text
beginning with a definition indicator and containing analytical keywords,
the code's fallback classifies `analytical`, while re-applying the fast
heuristic's test (same keyword set and same exclusion, as the claim
states) yields `conversational`: the two fallbacks differ. -/
theorem router_fallback_not_fast_heuristic_cex :
    (router_agent (emptyState "What is the total revenue?")
        (GenParse.genFail "gateway down")).intent = "analytical"
    ∧ routerFallbackIntentSpec (strLower "What is the total revenue?")
        = "conversational" := by
  decide

/-- C4 amended: on a gateway failure or an unparseable response, the
Router re-applies a keyword test with a reduced keyword list and without
the definition/translation exclusion (`routerFallbackIntent`), defaulting
to `conversational` when no keyword matches; on these failure paths the
intent is always set to `analytical` or `conversational`. -/
theorem router_fallback_reduced_keywords (st : QueryState)
    (g : GenParse (Option String))
    (hg : (∃ m, g = GenParse.genFail m) ∨ g = GenParse.parseFail) :
    ((router_agent st g).intent = "analytical"
      ∨ (router_agent st g).intent = "conversational")
    ∧ ((hasAnalyticalKeyword (strLower st.query)
          && !hasToolIndicator (strLower st.query)) = false
        → (router_agent st g).intent = routerFallbackIntent (strLower st.query)) := by
  have key : (hasAnalyticalKeyword (strLower st.query)
      && !hasToolIndicator (strLower st.query)) = false
      → (router_agent st g).intent = routerFallbackIntent (strLower st.query) := by
    intro hf
    unfold router_agent
    rcases hg with ⟨m, rfl⟩ | rfl <;> simp [hf]
  refine ⟨?_, key⟩
  by_cases hf : (hasAnalyticalKeyword (strLower st.query)
      && !hasToolIndicator (strLower st.query)) = true
  · left
    unfold router_agent
    simp [hf]
  · rw [key (eq_false_of_ne_true hf)]
    unfold routerFallbackIntent
    split
    · left; rfl
    · right; rfl

theorem router_fallback_reduced_keywords_witness :
    ((router_agent (emptyState "hello there") GenParse.parseFail).intent = "analytical"
      ∨ (router_agent (emptyState "hello there") GenParse.parseFail).intent
          = "conversational")
    ∧ ((hasAnalyticalKeyword (strLower "hello there")
          && !hasToolIndicator (strLower "hello there")) = false
        → (router_agent (emptyState "hello there") GenParse.parseFail).intent
            = routerFallbackIntent (strLower "hello there")) :=
  router_fallback_reduced_keywords _ _ (Or.inr rfl)

/-- C5 counterexample: an execution failure whose message contains
`does not exist` but also the substring `invalid` (here inside the quoted
column name) is classified as a SQL syntax error, not as the
table-or-column-not-found variant the claim asserts for every
`does not exist` message. -/
theorem analytical_misclassified_missing_column_cex :
    (analytical_agent { emptyState "show me the invalid_col values" with intent := "analytical" }
        ⟨"Database Schema", Except.error "gw down",
          Except.ok "SELECT invalid_col FROM t;",
          fun _ => Except.error "column \x22invalid_col\x22 does not exist"⟩).error
      = some "SQL syntax error: column \x22invalid_col\x22 does not exist"
    ∧ containsSub (strLower "column \x22invalid_col\x22 does not exist") "does not exist" = true
    ∧ containsSub "SQL syntax error: column \x22invalid_col\x22 does not exist"
        "table or column not found" = false := by
  decide

/-- C5 amended: on any failure — SQL generation or execution — with
message `m`, the Analytical Node sets `results = []`, preserves
`sql_query` (left unchanged when generation failed, bound to the attempted
query text when execution failed), and stores in `error` the
substring-match classification of `m` with `syntax error`/`invalid`
checked before `does not exist`/`relation`; in particular a message
containing `does not exist` (or `relation`) but neither `syntax error`
nor `invalid` yields the table-or-column-not-found classification. -/
theorem analytical_failure_amended (st : QueryState) (env : AnalyticalEnv)
    (m : String)
    (hintent : st.intent = "analytical")
    (hfail : env.sqlGen = Except.error m
      ∨ ∃ raw, env.sqlGen = Except.ok raw
          ∧ env.exec (stripSqlFences raw) = Except.error m) :
    (analytical_agent st env).results = some []
    ∧ (env.sqlGen = Except.error m
        → (analytical_agent st env).sql_query = st.sql_query)
    ∧ (∀ raw, env.sqlGen = Except.ok raw
        → (analytical_agent st env).sql_query = some (stripSqlFences raw))
    ∧ (analytical_agent st env).error = some (classifyExecError m)
    ∧ ((containsSub (strLower m) "syntax error"
          || containsSub (strLower m) "invalid") = false
        → (containsSub (strLower m) "does not exist"
          || containsSub (strLower m) "relation") = true
        → (analytical_agent st env).error
            = some ("Database error - table or column not found: " ++ m)) := by
  have hmain : (analytical_agent st env).results = some []
      ∧ (env.sqlGen = Except.error m
          → (analytical_agent st env).sql_query = st.sql_query)
      ∧ (∀ raw, env.sqlGen = Except.ok raw
          → (analytical_agent st env).sql_query = some (stripSqlFences raw))
      ∧ (analytical_agent st env).error = some (classifyExecError m) := by
    rcases hfail with hgenf | ⟨raw, hok, hex⟩
    · refine ⟨?_, fun _ => ?_, fun raw2 hok2 => ?_, ?_⟩
      · unfold analytical_agent
        rw [hgenf]
      · unfold analytical_agent
        rw [hgenf]
      · rw [hgenf] at hok2
        simp at hok2
      · unfold analytical_agent
        rw [hgenf]
    · refine ⟨?_, fun hgenf => ?_, fun raw2 hok2 => ?_, ?_⟩
      · unfold analytical_agent
        rw [hok]
        simp [hex]
      · rw [hok] at hgenf
        simp at hgenf
      · rw [hok] at hok2
        injection hok2 with hraw
        subst hraw
        unfold analytical_agent
        rw [hok]
        simp [hex]
      · unfold analytical_agent
        rw [hok]
        simp [hex]
  refine ⟨hmain.1, hmain.2.1, hmain.2.2.1, hmain.2.2.2, fun h1 h2 => ?_⟩
  rw [hmain.2.2.2]
  unfold classifyExecError
  simp [h1, h2]

theorem analytical_failure_amended_witness :
    (analytical_agent { emptyState "list the orders" with intent := "analytical" }
        ⟨"Database Schema", Except.error "gw down", Except.ok "SELECT a FROM b",
          fun _ => Except.error "relation \x22b\x22 does not exist"⟩).results = some []
    ∧ (analytical_agent { emptyState "list the orders" with intent := "analytical" }
        ⟨"Database Schema", Except.error "gw down", Except.ok "SELECT a FROM b",
          fun _ => Except.error "relation \x22b\x22 does not exist"⟩).sql_query
      = some (stripSqlFences "SELECT a FROM b")
    ∧ (analytical_agent { emptyState "list the orders" with intent := "analytical" }
        ⟨"Database Schema", Except.error "gw down", Except.ok "SELECT a FROM b",
          fun _ => Except.error "relation \x22b\x22 does not exist"⟩).error
      = some ("Database error - table or column not found: "
          ++ "relation \x22b\x22 does not exist") :=
  have h := analytical_failure_amended
    { emptyState "list the orders" with intent := "analytical" }
    ⟨"Database Schema", Except.error "gw down", Except.ok "SELECT a FROM b",
      fun _ => Except.error "relation \x22b\x22 does not exist"⟩
    "relation \x22b\x22 does not exist" rfl
    (Or.inr ⟨"SELECT a FROM b", rfl, rfl⟩)
  ⟨h.1, h.2.2.1 "SELECT a FROM b" rfl, h.2.2.2.2 (by decide) (by decide)⟩

/-- C7 counterexample: with a rating query, a nonempty result whose first
row has a numeric `avg_score` column but no identifier-like column, and a
gateway choice of `table`, the override does force a bar chart with
y-axis `avg_score` — but its x-axis is the row's first key (`avg_score`
itself), not an identifier column, since the identifier-column list is
empty. -/
theorem viz_override_non_identifier_axis_cex :
    (viz_generator vizCexState
        (GenParse.ok ⟨"table", none, none, none⟩)).visualization_config
      = some ⟨"bar", some "avg_score", some "avg_score", none⟩
    ∧ idColumns vizCexRow = [] := by
  decide

/-- C7 amended: under the claim's preconditions (nonempty results, first
row with numeric `avg_score`, rating-mentioning query, no prior error, and
a gateway outcome of type `table`, an unparseable response, or a failed
call), the final configuration is a bar chart with y-axis `avg_score` and
x-axis `ratingOverrideX`: `product_id` when present, else the first
identifier-like column, else the first column of the row. -/
theorem viz_rating_override_amended (st : QueryState) (gen : GenParse VizConfig)
    (r : Row) (rs : List Row)
    (hres : st.results = some (r :: rs))
    (herr : pyTruthyStr st.error = false)
    (hrat : mentionsRatings (strLower st.query) = true)
    (havg : (numericColumns r).contains "avg_score" = true)
    (hgen : (∃ cfg, gen = GenParse.ok cfg ∧ cfg.vtype = "table")
        ∨ gen = GenParse.parseFail ∨ (∃ m, gen = GenParse.genFail m)) :
    (viz_generator st gen).visualization_config = some (ratingBarViz r) := by
  have havg' : "avg_score" ∈ numericColumns r := by simpa using havg
  unfold viz_generator
  rcases hgen with ⟨cfg, rfl, hcfg⟩ | rfl | ⟨m, rfl⟩
  · simp [hres, herr, hrat, havg', hcfg]
  · simp [hres, herr, hrat, havg']
  · simp [hres, herr, hrat, havg']

theorem viz_rating_override_amended_witness :
    (viz_generator vizWitnessState
        (GenParse.ok ⟨"table", some "product_id", some "order_count", none⟩)).visualization_config
      = some (ratingBarViz vizWitnessRow) :=
  viz_rating_override_amended _ _ _ _ rfl rfl (by decide) (by decide)
    (Or.inl ⟨_, rfl, rfl⟩)

set_option maxRecDepth 4000 in
/-- C9 counterexample: a successful lookup whose summary has 501
characters stores a string of 503 characters (500 kept plus the
three-character ellipsis), exceeding the claimed 500-character bound. -/
theorem wiki_truncation_over_500_cex :
    500 < (wikipedia_lookup "boleto"
        (fun _ => AttemptOutcome.gotSummary (String.mk (List.replicate 501 'a')))
        ⟨true, Except.ok "d"⟩ true).text.length
    ∧ (wikipedia_lookup "boleto"
        (fun _ => AttemptOutcome.gotSummary (String.mk (List.replicate 501 'a')))
        ⟨true, Except.ok "d"⟩ true).text.length = 503 := by
  have h : (wikipedia_lookup "boleto"
      (fun _ => AttemptOutcome.gotSummary (String.mk (List.replicate 501 'a')))
      ⟨true, Except.ok "d"⟩ true).text
      = truncate500 (String.mk (List.replicate 501 'a')) := rfl
  have hlen : (truncate500 (String.mk (List.replicate 501 'a'))).length = 503 := by
    unfold truncate500
    rw [if_pos (by rw [strLength_mk]; simp)]
    rw [strLength_append, strLength_mk, List.length_take,
      show ("...".length) = 3 from rfl]
    simp
  rw [h, hlen]
  omega

/-- C9 amended: a successful (non-fallback) lookup stores the truncation
of the fetched summary: its first 500 characters plus a three-character
ellipsis when it exceeds 500 characters, so the stored string never
exceeds 503 characters (not 500). -/
theorem wiki_truncation_amended (topic : String) (outcomes : Nat → AttemptOutcome)
    (defEnv : DefEnv)
    (hfb : (wikipedia_lookup topic outcomes defEnv true).fallbackTerm = none) :
    (∃ s, (wikipedia_lookup topic outcomes defEnv true).text = truncate500 s)
    ∧ (wikipedia_lookup topic outcomes defEnv true).text.length ≤ 503 := by
  obtain ⟨s, hs⟩ := wikiLoop_summary_trunc topic defEnv
    ((List.range max_retries).map outcomes) 0 [] hfb
  refine ⟨⟨s, hs⟩, ?_⟩
  rw [show (wikipedia_lookup topic outcomes defEnv true).text = truncate500 s from hs]
  exact truncate500_length_le s

theorem wiki_truncation_amended_witness :
    (∃ s, (wikipedia_lookup "pix"
        (fun _ => AttemptOutcome.gotSummary "a Brazilian instant payment system")
        ⟨true, Except.ok "d"⟩ true).text = truncate500 s)
    ∧ (wikipedia_lookup "pix"
        (fun _ => AttemptOutcome.gotSummary "a Brazilian instant payment system")
        ⟨true, Except.ok "d"⟩ true).text.length ≤ 503 :=
  wiki_truncation_amended _ _ _ rfl

end QueryMind
